import Mathlib

/-!
Verification of the VERI*FACTU record engine (ERPlora module-verifactu).

Shallow embedding of the Python sources:
  * services/hash_service.py  — canonical strings and the SHA-256 hash chain
  * services/recovery_service.py — recovery-pointer resolution
  * services/reconciliation_service.py — conflict diagnosis
  * services/contingency.py — contingency state machine and retry scheduling
  * models.py — configuration lock, record save, queue backoff

Python `Decimal` amounts are modelled as nonnegative scaled naturals
(`Dec`), Python `datetime` values as explicit calendar structures
(`Timestamp`), byte strings as `List Nat` (each element < 256), and
SHA-256 is implemented over those byte lists with `Nat` arithmetic
mod 2^32.  Database queries are modelled as pure functions over the
lists of stored rows; network/certificate effects become `Option`
parameters (`none` = unavailable / not configured / query failed).
-/

namespace Verifactu

/-- Zero-padded two-digit rendering, as Python `strftime` `%d`/`%m`/`%H`/`%M`/`%S`
and as the fractional part of a two-decimal amount. -/
def pad2 (n : Nat) : String :=
  if n < 10 then "0" ++ toString n else toString n

/-- A calendar date (Python `datetime.date`). -/
structure DateD where
  day : Nat
  month : Nat
  year : Nat
deriving DecidableEq, Repr

/-- Source `HashService.format_date`: `date.strftime('%d-%m-%Y')`. -/
def format_date (d : DateD) : String :=
  pad2 d.day ++ "-" ++ pad2 d.month ++ "-" ++ toString d.year

/-- A timezone-aware instant (Python aware `datetime`), offset split into
sign / hours / minutes.  The source's naive branch (`timezone.make_aware`)
attaches the system zone and is outside the pure model: all modelled
instants are aware. -/
structure Timestamp where
  year : Nat
  month : Nat
  day : Nat
  hour : Nat
  minute : Nat
  second : Nat
  offNeg : Bool
  offHour : Nat
  offMin : Nat
deriving DecidableEq, Repr

/-- Source `HashService.format_timestamp`: `strftime('%Y-%m-%dT%H:%M:%S%z')` followed
by inserting the colon in the offset (`+0100` → `+01:00`). -/
def format_timestamp (t : Timestamp) : String :=
  toString t.year ++ "-" ++ pad2 t.month ++ "-" ++ pad2 t.day ++ "T" ++
  pad2 t.hour ++ ":" ++ pad2 t.minute ++ ":" ++ pad2 t.second ++
  (if t.offNeg then "-" else "+") ++ pad2 t.offHour ++ ":" ++ pad2 t.offMin

/-- A nonnegative Python `Decimal`: value `mant / 10 ^ scale`.
(All amounts reaching the canonicalizer in the claims are nonnegative.) -/
structure Dec where
  mant : Nat
  scale : Nat
deriving DecidableEq, Repr

/-- Round `n / d` to the nearest integer, ties to the even neighbour
(the ROUND_HALF_EVEN rule Python's `Decimal.__format__` applies). -/
def halfEvenDiv (n d : Nat) : Nat :=
  let q := n / d
  let r := n % d
  if 2 * r < d then q
  else if d < 2 * r then q + 1
  else if q % 2 = 0 then q else q + 1

/-- The value of a `Dec` in cents, rounded half-to-even — what
`f"{amount:.2f}"` rounds a `Decimal` to before rendering. -/
def toCents (x : Dec) : Nat :=
  if x.scale ≤ 2 then x.mant * 10 ^ (2 - x.scale)
  else halfEvenDiv x.mant (10 ^ (x.scale - 2))

/-- Source `HashService.format_amount`: `f"{amount:.2f}"` on a `Decimal` —
two fractional digits, `.` separator, no thousands separator,
round-half-even. -/
def format_amount (x : Dec) : String :=
  let c := toCents x
  toString (c / 100) ++ "." ++ pad2 (c % 100)

/-! ## UTF-8 and SHA-256 (`hashlib.sha256(s.encode('utf-8')).hexdigest().upper()`) -/

/-- UTF-8 encoding of one character. -/
def utf8EncodeChar (c : Char) : List Nat :=
  let n := c.toNat
  if n < 128 then [n]
  else if n < 2048 then [192 + (n >>> 6), 128 + (n % 64)]
  else if n < 65536 then
    [224 + (n >>> 12), 128 + ((n >>> 6) % 64), 128 + (n % 64)]
  else
    [240 + (n >>> 18), 128 + ((n >>> 12) % 64), 128 + ((n >>> 6) % 64), 128 + (n % 64)]

/-- Python `s.encode('utf-8')` as a byte list. -/
def utf8Encode (s : String) : List Nat :=
  s.data.flatMap utf8EncodeChar

/-- Truncation to 32 bits. -/
def w32 (n : Nat) : Nat := n % 4294967296

/-- Rotate a 32-bit word right by `k`. -/
def rotr (k x : Nat) : Nat := w32 ((x >>> k) ||| (x <<< (32 - k)))

def shaCh (e f g : Nat) : Nat := (e &&& f) ^^^ ((e ^^^ 4294967295) &&& g)

def shaMaj (a b c : Nat) : Nat := (a &&& b) ^^^ (a &&& c) ^^^ (b &&& c)

def bigSigma0 (x : Nat) : Nat := rotr 2 x ^^^ rotr 13 x ^^^ rotr 22 x

def bigSigma1 (x : Nat) : Nat := rotr 6 x ^^^ rotr 11 x ^^^ rotr 25 x

def smallSigma0 (x : Nat) : Nat := rotr 7 x ^^^ rotr 18 x ^^^ (x >>> 3)

def smallSigma1 (x : Nat) : Nat := rotr 17 x ^^^ rotr 19 x ^^^ (x >>> 10)

/-- The SHA-256 round constants (FIPS 180-4, written in decimal). -/
def shaK : List Nat :=
  [1116352408, 1899447441, 3049323471, 3921009573, 961987163, 1508970993,
   2453635748, 2870763221, 3624381080, 310598401, 607225278, 1426881987,
   1925078388, 2162078206, 2614888103, 3248222580, 3835390401, 4022224774,
   264347078, 604807628, 770255983, 1249150122, 1555081692, 1996064986,
   2554220882, 2821834349, 2952996808, 3210313671, 3336571891, 3584528711,
   113926993, 338241895, 666307205, 773529912, 1294757372, 1396182291,
   1695183700, 1986661051, 2177026350, 2456956037, 2730485921, 2820302411,
   3259730800, 3345764771, 3516065817, 3600352804, 4094571909, 275423344,
   430227734, 506948616, 659060556, 883997877, 958139571, 1322822218,
   1537002063, 1747873779, 1955562222, 2024104815, 2227730452, 2361852424,
   2428436474, 2756734187, 3204031479, 3329325298]

/-- Working state of the SHA-256 compression function. -/
structure Hs where
  a : Nat
  b : Nat
  c : Nat
  d : Nat
  e : Nat
  f : Nat
  g : Nat
  h : Nat
deriving DecidableEq, Repr

/-- Initial SHA-256 state (FIPS 180-4, written in decimal). -/
def shaInit : Hs :=
  ⟨1779033703, 3144134277, 1013904242, 2773480762,
   1359893119, 2600822924, 528734635, 1541459225⟩

/-- The 64-word message schedule of one 64-byte block. -/
def msgSchedule (block : List Nat) : List Nat :=
  let w0 := (List.range 16).map fun i =>
    ((block.getD (4 * i) 0) <<< 24) + ((block.getD (4 * i + 1) 0) <<< 16) +
    ((block.getD (4 * i + 2) 0) <<< 8) + block.getD (4 * i + 3) 0
  (List.range 48).foldl
    (fun w _ =>
      let n := w.length
      w ++ [w32 (smallSigma1 (w.getD (n - 2) 0) + w.getD (n - 7) 0 +
                 smallSigma0 (w.getD (n - 15) 0) + w.getD (n - 16) 0)])
    w0

/-- One SHA-256 round. -/
def shaStep (s : Hs) (ki wi : Nat) : Hs :=
  let t1 := w32 (s.h + bigSigma1 s.e + shaCh s.e s.f s.g + ki + wi)
  let t2 := w32 (bigSigma0 s.a + shaMaj s.a s.b s.c)
  ⟨w32 (t1 + t2), s.a, s.b, s.c, w32 (s.d + t1), s.e, s.f, s.g⟩

/-- Compression of one 64-byte block. -/
def shaCompress (s : Hs) (block : List Nat) : Hs :=
  let w := msgSchedule block
  let t := (List.range 64).foldl (fun st i => shaStep st (shaK.getD i 0) (w.getD i 0)) s
  ⟨w32 (s.a + t.a), w32 (s.b + t.b), w32 (s.c + t.c), w32 (s.d + t.d),
   w32 (s.e + t.e), w32 (s.f + t.f), w32 (s.g + t.g), w32 (s.h + t.h)⟩

/-- Big-endian bytes of a 32-bit word. -/
def wordBytes (w : Nat) : List Nat :=
  [(w >>> 24) % 256, (w >>> 16) % 256, (w >>> 8) % 256, w % 256]

/-- The 32 digest bytes of a final state. -/
def digestBytes (s : Hs) : List Nat :=
  wordBytes s.a ++ wordBytes s.b ++ wordBytes s.c ++ wordBytes s.d ++
  wordBytes s.e ++ wordBytes s.f ++ wordBytes s.g ++ wordBytes s.h

/-- SHA-256 padding: `0x80`, zeros to 56 mod 64, 8-byte big-endian bit length. -/
def shaPad (msg : List Nat) : List Nat :=
  let len := msg.length
  let padZeros := (120 - (len + 1) % 64) % 64
  let lenBits := 8 * len
  msg ++ 128 :: List.replicate padZeros 0 ++
    [(lenBits >>> 56) % 256, (lenBits >>> 48) % 256, (lenBits >>> 40) % 256,
     (lenBits >>> 32) % 256, (lenBits >>> 24) % 256, (lenBits >>> 16) % 256,
     (lenBits >>> 8) % 256, lenBits % 256]

/-- SHA-256 of a byte list. -/
def sha256 (msg : List Nat) : List Nat :=
  let padded := shaPad msg
  let nBlocks := padded.length / 64
  digestBytes ((List.range nBlocks).foldl
    (fun s i => shaCompress s ((padded.drop (64 * i)).take 64)) shaInit)

/-- The sixteen uppercase hexadecimal digits. -/
def hexDigits : List Char :=
  ['0','1','2','3','4','5','6','7','8','9','A','B','C','D','E','F']

/-- One uppercase hexadecimal digit (nibbles are always < 16; the default
is never reached). -/
def hexChar (n : Nat) : Char := hexDigits.getD n 'F'

/-- The two uppercase hex characters of one byte. -/
def byteHex (b : Nat) : List Char :=
  [hexChar ((b >>> 4) % 16), hexChar (b % 16)]

/-- Rendering `.hexdigest().upper()` of a digest byte list. -/
def hexUpper (bytes : List Nat) : String :=
  String.mk (bytes.flatMap byteHex)

/-- Python `hashlib.sha256(s.encode('utf-8')).hexdigest().upper()`. -/
def sha256HexUpper (s : String) : String :=
  hexUpper (sha256 (utf8Encode s))

/-! ## services/hash_service.py — canonical strings and record hashes -/

/-- The `hash_input` string of `HashService.calculate_alta_hash`
(registration records), field by field as in the source f-string. -/
def altaHashInput (issuer_nif invoice_number : String) (invoice_date : DateD)
    (invoice_type : String) (tax_amount total_amount : Dec)
    (previous_hash : String) (generation_timestamp : Timestamp) : String :=
  "IDEmisorFactura=" ++ issuer_nif ++
  "&NumSerieFactura=" ++ invoice_number ++
  "&FechaExpedicionFactura=" ++ format_date invoice_date ++
  "&TipoFactura=" ++ invoice_type ++
  "&CuotaTotal=" ++ format_amount tax_amount ++
  "&ImporteTotal=" ++ format_amount total_amount ++
  "&Huella=" ++ previous_hash ++
  "&FechaHoraHusoGenRegistro=" ++ format_timestamp generation_timestamp

/-- Source `HashService.calculate_alta_hash`. -/
def calculate_alta_hash (issuer_nif invoice_number : String) (invoice_date : DateD)
    (invoice_type : String) (tax_amount total_amount : Dec)
    (previous_hash : String) (generation_timestamp : Timestamp) : String :=
  sha256HexUpper (altaHashInput issuer_nif invoice_number invoice_date
    invoice_type tax_amount total_amount previous_hash generation_timestamp)

/-- The `hash_input` string of `HashService.calculate_anulacion_hash`
(cancellation records): only the five fields of the source f-string. -/
def anulacionHashInput (issuer_nif invoice_number : String) (invoice_date : DateD)
    (previous_hash : String) (generation_timestamp : Timestamp) : String :=
  "IDEmisorFactura=" ++ issuer_nif ++
  "&NumSerieFactura=" ++ invoice_number ++
  "&FechaExpedicionFactura=" ++ format_date invoice_date ++
  "&Huella=" ++ previous_hash ++
  "&FechaHoraHusoGenRegistro=" ++ format_timestamp generation_timestamp

/-- Source `HashService.calculate_anulacion_hash`. -/
def calculate_anulacion_hash (issuer_nif invoice_number : String)
    (invoice_date : DateD) (previous_hash : String)
    (generation_timestamp : Timestamp) : String :=
  sha256HexUpper (anulacionHashInput issuer_nif invoice_number invoice_date
    previous_hash generation_timestamp)

/-- Source `HashService.validate_hash_format`: 64 uppercase hexadecimal characters. -/
def validate_hash_format (h : String) : Bool :=
  h.length == 64 && h.data.all fun c =>
    ['0','1','2','3','4','5','6','7','8','9','A','B','C','D','E','F'].contains c

/-! ## The chain store rows and previous-hash resolution -/

/-- The projection of a stored `VerifactuRecord` row that previous-hash
resolution and reconciliation read. -/
structure StoredRecord where
  sequence_number : Nat
  record_hash : String
deriving DecidableEq, Repr

/-- Query `VerifactuRecord.objects.filter(issuer_nif=…).order_by('-sequence_number').first()`:
the row with the greatest `sequence_number` among the issuer's rows
(`none` on an empty store).  Ties keep the earlier row. -/
def headRec : List StoredRecord → Option StoredRecord
  | [] => none
  | r :: rest =>
    match headRec rest with
    | none => some r
    | some m => some (if r.sequence_number < m.sequence_number then m else r)

/-- Source `HashService.get_last_hash` with `check_aeat_recovery=True`.
`local` is the issuer's stored rows; `aeat` is the outcome of
`ReconciliationService.get_aeat_last_hash` (`none` when the certificate is
missing, the query failed, or an exception was swallowed).  The source
tests the AEAT hash for Python truthiness, so an empty recovered string
falls through to `""`. -/
def get_last_hash (loc : List StoredRecord) (aeat : Option String) : String :=
  match headRec loc with
  | some r => r.record_hash
  | none =>
    match aeat with
    | some h => if h = "" then "" else h
    | none => ""

/-- Source `HashService.get_next_sequence_number`. -/
def get_next_sequence_number (loc : List StoredRecord) : Nat :=
  match headRec loc with
  | some r => r.sequence_number + 1
  | none => 1

/-- Source `ChainRecoveryService.get_effective_last_hash`: local head first,
then the stored recovery point's `hash` entry, else `""`. -/
def get_effective_last_hash (loc : List StoredRecord)
    (recoveryPoint : Option String) : String :=
  match headRec loc with
  | some r => r.record_hash
  | none =>
    match recoveryPoint with
    | some h => h
    | none => ""

/-! ## services/hash_service.py — the record builder -/

inductive RecordType where
  | alta
  | anulacion
deriving DecidableEq, Repr

/-- The invoice attributes `HashService.create_record_from_invoice` reads. -/
structure Invoice where
  number : String
  issue_date : DateD
  /-- Whether `invoice.invoice_type == 'standard'` (selects `F1` over `F2`). -/
  standard : Bool
  subtotal : Dec
  tax_rate : Dec
  tax_amount : Dec
  total : Dec
deriving DecidableEq, Repr

/-- The fields of the `VerifactuRecord` instance the builder returns. -/
structure BuiltRecord where
  record_type : RecordType
  sequence_number : Nat
  issuer_nif : String
  issuer_name : String
  invoice_number : String
  invoice_date : DateD
  invoice_type : String
  base_amount : Dec
  tax_rate : Dec
  tax_amount : Dec
  total_amount : Dec
  previous_hash : String
  is_first_record : Bool
  generation_timestamp : Timestamp
  record_hash : String
deriving DecidableEq, Repr

/-- The exception `VerifactuRecord(invoice=invoice, …)` raises: the model
declares only `invoice_id` (a plain UUIDField, models.py line 356), so the
Django model constructor rejects the `invoice` keyword. -/
def invoiceKwargError : String :=
  "TypeError: invoice is an invalid keyword argument for this function"

/-- Source `HashService.create_record_from_invoice`.  `loc` is the issuer's
stored rows and `aeat` the AEAT-recovery outcome, exactly as in
`get_last_hash`; `issuer_nif`/`issuer_name` come from the configuration;
`now` is `timezone.now()`.  The source resolves the chain info (previous
hash, next sequence number, `is_first = sequence_number == 1`) and then
constructs `VerifactuRecord(…, invoice=invoice, …)`; `VerifactuRecord` has
no `invoice` field, so the constructor raises `TypeError` on every call and
the function never returns a record — the assembly and the hash assignment
of lines 327-368 are unreachable.  Fallible code is modelled with
`Except`; the chain-info computation before the raise is pure and
effect-free, so only the raise is observable. -/
def create_record_from_invoice (loc : List StoredRecord) (aeat : Option String)
    (issuer_nif issuer_name : String) (inv : Invoice) (now : Timestamp)
    (rt : RecordType) : Except String BuiltRecord :=
  .error invoiceKwargError

/-! ## models.py — VerifactuConfig: mode lock -/

/-- The mode-lock / module-activation fields of the singleton
`VerifactuConfig`.  `fiscal_year_locked` is a nullable positive integer
column, hence `Option Nat`. -/
structure VerifactuConfig where
  mode_locked : Bool
  mode_locked_at : Option Timestamp
  mode_locked_by : Option String
  fiscal_year_locked : Option Nat
  module_activated : Bool
  first_record_date : Option DateD
deriving DecidableEq, Repr

/-- Source `VerifactuConfig.can_change_mode`, with `timezone.now().year` passed
explicitly.  The source's `if self.fiscal_year_locked and …` tests Python
truthiness, so a null (or zero) locked year yields `False` once locked. -/
def can_change_mode (cfg : VerifactuConfig) (currentYear : Nat) : Bool :=
  if !cfg.mode_locked then true
  else
    match cfg.fiscal_year_locked with
    | some y => decide (y ≠ 0) && decide (y ≠ currentYear)
    | none => false

/-- Source `VerifactuConfig.lock_mode`, with `timezone.now()` passed explicitly:
a no-op when already locked, otherwise sets the six lock fields. -/
def lock_mode (cfg : VerifactuConfig) (userId : Option String)
    (now : Timestamp) : VerifactuConfig :=
  if cfg.mode_locked then cfg
  else
    { cfg with
      mode_locked := true
      mode_locked_at := some now
      mode_locked_by := userId
      fiscal_year_locked := some now.year
      module_activated := true
      first_record_date := some ⟨now.day, now.month, now.year⟩ }

/-! ## models.py — VerifactuRecord.save -/

/-- The fields of a `VerifactuRecord` that `save`, `calculate_hash` and
`generate_qr_url` touch.  `generation_timestamp` is nullable before the
first save; `record_hash` and `qr_url` are empty strings until computed. -/
structure RecordRow where
  record_type : RecordType
  issuer_nif : String
  invoice_number : String
  invoice_date : DateD
  invoice_type : String
  tax_amount : Dec
  total_amount : Dec
  previous_hash : String
  record_hash : String
  is_first_record : Bool
  generation_timestamp : Option Timestamp
  qr_url : String
deriving DecidableEq, Repr

/-- Placeholder instant used to totalise `calculate_hash` on rows whose
timestamp is unset; `save` always sets the timestamp before hashing, so
the placeholder is never reached on the save path. -/
def defaultTimestamp : Timestamp := ⟨1970, 1, 1, 0, 0, 0, false, 0, 0⟩

/-- Source `VerifactuRecord.calculate_hash`: the f-strings in models.py are
character-identical to the ones in `HashService.calculate_alta_hash` /
`calculate_anulacion_hash`, including the timestamp colon fix. -/
def RecordRow.calculate_hash (r : RecordRow) : String :=
  let ts := r.generation_timestamp.getD defaultTimestamp
  match r.record_type with
  | .alta => calculate_alta_hash r.issuer_nif r.invoice_number r.invoice_date
      r.invoice_type r.tax_amount r.total_amount r.previous_hash ts
  | .anulacion => calculate_anulacion_hash r.issuer_nif r.invoice_number
      r.invoice_date r.previous_hash ts

/-- Source `VerifactuRecord.generate_qr_url`. -/
def RecordRow.generate_qr_url (r : RecordRow) : String :=
  "https://www2.agenciatributaria.gob.es/wlpl/TIKE-CONT/ValidarQR" ++
  "?nif=" ++ r.issuer_nif ++
  "&numserie=" ++ r.invoice_number ++
  "&fecha=" ++ format_date r.invoice_date ++
  "&importe=" ++ format_amount r.total_amount

/-- The record-mutation part of `VerifactuRecord.save`: set the timestamp
if unset, compute `record_hash` if empty, compute `qr_url` if empty
(Python truthiness on each field). -/
def save_record (r : RecordRow) (now : Timestamp) : RecordRow :=
  let r1 := if r.generation_timestamp = none
            then { r with generation_timestamp := some now } else r
  let r2 := if r1.record_hash = ""
            then { r1 with record_hash := r1.calculate_hash } else r1
  if r2.qr_url = "" then { r2 with qr_url := r2.generate_qr_url } else r2

/-- The configuration side effect of `VerifactuRecord.save`: on a newly
inserted row, lock the mode if it is not yet locked. -/
def save_record_config (isNew : Bool) (cfg : VerifactuConfig)
    (createdBy : Option String) (now : Timestamp) : VerifactuConfig :=
  if isNew && !cfg.mode_locked then lock_mode cfg createdBy now else cfg

/-! ## services/reconciliation_service.py — conflict diagnosis -/

inductive ReconStatus where
  | success
  | mismatch_detected
  | manual_intervention_required
deriving DecidableEq, Repr

inductive ConflictType where
  | none
  | local_behind
  | local_ahead
  | hash_mismatch
deriving DecidableEq, Repr

/-- An entry of the AEAT query response (`AEATQueryRecord`), restricted to
the field conflict diagnosis reads. -/
structure AeatRecord where
  record_hash : String
deriving DecidableEq, Repr

/-- The `(status, conflict_type, can_auto_resolve)` triple of a
`ReconciliationResult` after `diagnose_conflict`. -/
structure Diagnosis where
  status : ReconStatus
  conflict_type : ConflictType
  can_auto_resolve : Bool
deriving DecidableEq, Repr

/-- Local head hash as `reconcile` computes it: hash of the
highest-sequence row, `""` on an empty store. -/
def localLastHash (loc : List StoredRecord) : String :=
  match headRec loc with
  | some r => r.record_hash
  | none => ""

/-- Authority head hash as `reconcile` computes it: `records[0].record_hash`
if the response has records, else `""`. -/
def aeatLastHash (aeat : List AeatRecord) : String :=
  match aeat.head? with
  | some a => a.record_hash
  | none => ""

/-- Source `ReconciliationService._is_local_behind`: the authority head hash
occurs somewhere in the issuer's local rows. -/
def is_local_behind (loc : List StoredRecord) (aeatHash : String) : Bool :=
  loc.any fun r => r.record_hash == aeatHash

/-- Source `ReconciliationService.diagnose_conflict` on a connected client
(certificate present, query succeeded): `reconcile` compares head hashes —
equal is `SUCCESS` — and on mismatch the conflict is classified from the
record counts and `_is_local_behind`.  The real client sets
`total_count = len(records)`, so the AEAT count is `aeat.length`. -/
def diagnose_conflict (loc : List StoredRecord) (aeat : List AeatRecord) :
    Diagnosis :=
  let lh := localLastHash loc
  let ah := aeatLastHash aeat
  if lh = ah then ⟨.success, .none, false⟩
  else if loc.length = 0 ∧ aeat.length > 0 then
    ⟨.mismatch_detected, .local_behind, true⟩
  else if loc.length > 0 ∧ aeat.length = 0 then
    ⟨.mismatch_detected, .local_ahead, true⟩
  else if lh ≠ ah then
    if is_local_behind loc ah then ⟨.mismatch_detected, .local_behind, true⟩
    else ⟨.manual_intervention_required, .hash_mismatch, false⟩
  else ⟨.mismatch_detected, .none, false⟩

/-! ## services/contingency.py — contingency manager and retry backoff -/

inductive ContingencyMode where
  | normal
  | offline
  | degraded
  | recovery
deriving DecidableEq, Repr

inductive FailureType where
  | network
  | aeat_unavailable
  | certificate
  | hash_chain
  | database
  | validation
  | unknown
deriving DecidableEq, Repr

/-- The in-memory state of `ContingencyManager`. -/
structure Manager where
  mode : ContingencyMode
  failure_type : Option FailureType
  failure_count : Nat
deriving DecidableEq, Repr

/-- Source `ContingencyManager.__init__`. -/
def Manager.init : Manager := ⟨.normal, none, 0⟩

/-- Source `ContingencyManager.RETRY_INTERVALS` (seconds). -/
def RETRY_INTERVALS : List Nat := [60, 300, 900, 3600, 7200]

/-- Source `ContingencyManager._can_create_records`: blocked only on hash-chain
corruption. -/
def Manager.can_create_records (m : Manager) : Bool :=
  m.failure_type ≠ some .hash_chain

/-- Source `ContingencyManager._calculate_next_retry` (reached from
`get_status`), with `timezone.now()` passed as seconds: `None` in normal
mode, otherwise `now + RETRY_INTERVALS[min(failure_count, 4)]`. -/
def Manager.calculate_next_retry (m : Manager) (now : Nat) : Option Nat :=
  if m.mode = .normal then none
  else some (now + RETRY_INTERVALS.getD (min m.failure_count 4) 0)

/-- Source `ContingencyManager.record_success`: reset the failure counter and
return to normal mode (clearing the failure type when leaving a
non-normal mode). -/
def Manager.record_success (m : Manager) : Manager :=
  if m.mode ≠ .normal then ⟨.normal, none, 0⟩
  else { m with failure_count := 0 }

/-- The exception `VerifactuEvent.objects.create(event_type='error',
description=…, record_id=…)` raises: `VerifactuEvent` declares `message`
(models.py line 615) and no `description` field, so the Django model
constructor rejects the keyword. -/
def descriptionKwargError : String :=
  "TypeError: description is an invalid keyword argument for this function"

/-- Source `ContingencyManager.record_failure`: it increments the
consecutive-failure counter and stores the failure type
(contingency.py lines 199-200), then logs the event with
`VerifactuEvent.objects.create(…, description=…)` — which raises
`TypeError`, because `VerifactuEvent` has no `description` field.  The
mode-transition block at lines 214-224 (degraded/offline/recovery) is
therefore unreachable: the call always leaves the mode unchanged and
propagates the exception after the two mutations.  The result pairs the
mutated manager state with the raised exception. -/
def Manager.record_failure (m : Manager) (ft : FailureType) : Manager × String :=
  ({ m with failure_count := m.failure_count + 1, failure_type := some ft },
   descriptionKwargError)

/-- The queue-entry fields of the `ContingencyQueue` model that
`schedule_retry` writes (`attempts` / `next_attempt_at`). -/
structure QueueEntry where
  attempts : Nat
  last_attempt_at : Option Nat
  next_attempt_at : Option Nat
deriving DecidableEq, Repr

/-- The exception `ContingencyQueue.objects.filter(…, next_retry__lte=…)`
raises: the model declares `next_attempt_at` and no `next_retry` field, so
Django raises `FieldError` when the filter is built, before any row is
read. -/
def nextRetryFieldError : String :=
  "FieldError: cannot resolve keyword next_retry into field"

/-- Source `ContingencyManager.get_pending_records`: it filters the queue
on the nonexistent `next_retry` column (contingency.py line 265; the
`ContingencyQueue` field is `next_attempt_at`), so the query raises
`FieldError` for every queue state. -/
def get_pending_records (queue : List QueueEntry) :
    Except String (List QueueEntry) :=
  .error nextRetryFieldError

/-- Source `ContingencyManager.process_queue`: returns `(0, 0)` without
processing when the manager is Offline; otherwise it calls
`get_pending_records`, whose `FieldError` propagates uncaught — the
per-entry submission loop is unreachable, including the
`except AEATClientError` arm at lines 355-363 that would write the equally
nonexistent `retry_count` / `next_retry` entry attributes and then hit
`record_failure`'s own `TypeError`. -/
def process_queue (m : Manager) (queue : List QueueEntry) :
    Except String (Nat × Nat) :=
  if m.mode = ContingencyMode.offline then .ok (0, 0)
  else
    match get_pending_records queue with
    | .error e => .error e
    | .ok _ => .ok (0, 0)

/-- Source `ContingencyQueue.schedule_retry(interval_minutes)`: increment
`attempts`, back off `min(interval * 2^(attempts-1), 60)` minutes
(converted to seconds here). -/
def schedule_retry (e : QueueEntry) (interval_minutes : Nat) (now : Nat) :
    QueueEntry :=
  let attempts := e.attempts + 1
  let backoff := min (interval_minutes * 2 ^ (attempts - 1)) 60
  { attempts := attempts
    last_attempt_at := some now
    next_attempt_at := some (now + backoff * 60) }

/-! ## Digest shape lemmas -/

/-- A string made of uppercase hexadecimal characters only. -/
def allUpperHex (s : String) : Prop :=
  ∀ c ∈ s.data, c ∈ hexDigits

theorem hexChar_mem_hexDigits (n : Nat) : hexChar n ∈ hexDigits := by
  by_cases h : n < 16
  · interval_cases n <;> decide
  · have he : hexChar n = 'F' := by
      unfold hexChar
      rw [List.getD_eq_default]
      simp only [hexDigits, List.length_cons, List.length_nil]
      omega
    rw [he]
    decide

theorem flatMap_byteHex_length (l : List Nat) :
    (l.flatMap byteHex).length = 2 * l.length := by
  induction l with
  | nil => rfl
  | cons b t ih =>
    have h : (b :: t).flatMap byteHex = byteHex b ++ t.flatMap byteHex := rfl
    have hb : (byteHex b).length = 2 := rfl
    rw [h, List.length_append, ih, hb, List.length_cons]
    omega

theorem hexUpper_length (bytes : List Nat) :
    (hexUpper bytes).length = 2 * bytes.length := by
  have h : (hexUpper bytes).length = (bytes.flatMap byteHex).length := rfl
  rw [h, flatMap_byteHex_length]

theorem sha256_length (msg : List Nat) : (sha256 msg).length = 32 := by
  simp [sha256, digestBytes, wordBytes]

theorem sha256HexUpper_length (s : String) : (sha256HexUpper s).length = 64 := by
  simp [sha256HexUpper, hexUpper_length, sha256_length]

theorem sha256HexUpper_upperHex (s : String) : allUpperHex (sha256HexUpper s) := by
  intro c hc
  simp only [sha256HexUpper, hexUpper, String.data] at hc
  rcases List.mem_flatMap.mp hc with ⟨b, _, hcb⟩
  simp only [byteHex, List.mem_cons, List.not_mem_nil, or_false] at hcb
  rcases hcb with rfl | rfl <;> exact hexChar_mem_hexDigits _

theorem sha256HexUpper_ne_empty (s : String) : sha256HexUpper s ≠ "" := by
  intro h
  have := sha256HexUpper_length s
  rw [h] at this
  simp at this

/-! ## Head-row lemmas -/

theorem headRec_eq_none {l : List StoredRecord} :
    headRec l = none ↔ l = [] := by
  cases l with
  | nil => simp [headRec]
  | cons a t =>
    simp only [headRec]
    constructor
    · intro h
      cases hh : headRec t <;> simp [hh] at h
    · intro h
      exact absurd h (List.cons_ne_nil a t)

theorem headRec_mem {l : List StoredRecord} {r : StoredRecord}
    (h : headRec l = some r) : r ∈ l := by
  induction l with
  | nil => simp [headRec] at h
  | cons a t ih =>
    simp only [headRec] at h
    cases hh : headRec t with
    | none =>
      rw [hh] at h
      simp at h
      simp [h]
    | some m =>
      rw [hh] at h
      simp at h
      by_cases hc : a.sequence_number < m.sequence_number
      · rw [if_pos hc] at h
        subst h
        exact List.mem_cons_of_mem a (ih hh)
      · rw [if_neg hc] at h
        subst h
        exact List.mem_cons_self a t

theorem headRec_max {l : List StoredRecord} :
    ∀ {r : StoredRecord}, headRec l = some r →
      ∀ s ∈ l, s.sequence_number ≤ r.sequence_number := by
  induction l with
  | nil => intro r h; simp [headRec] at h
  | cons a t ih =>
    intro r h s hs
    simp only [headRec] at h
    cases hh : headRec t with
    | none =>
      rw [hh] at h
      simp at h
      have ht : t = [] := headRec_eq_none.mp hh
      subst ht
      simp at hs
      subst hs
      subst h
      exact Nat.le_refl _
    | some m =>
      rw [hh] at h
      simp at h
      rcases List.mem_cons.mp hs with rfl | hst
      · by_cases hc : s.sequence_number < m.sequence_number
        · rw [if_pos hc] at h
          subst h
          exact Nat.le_of_lt hc
        · rw [if_neg hc] at h
          subst h
          exact Nat.le_refl _
      · by_cases hc : a.sequence_number < m.sequence_number
        · rw [if_pos hc] at h
          subst h
          exact ih hh s hst
        · rw [if_neg hc] at h
          subst h
          exact Nat.le_trans (ih hh s hst) (Nat.le_of_not_lt hc)

theorem headRec_isSome {l : List StoredRecord} (h : l ≠ []) :
    ∃ r, headRec l = some r := by
  cases hh : headRec l with
  | none => exact absurd (headRec_eq_none.mp hh) h
  | some r => exact ⟨r, rfl⟩

/-! ## The claims -/

set_option maxRecDepth 1000000 in
/-- C1: for every registration (alta) record the SHA-256 input is exactly the
canonical string
`IDEmisorFactura={nif}&NumSerieFactura={number}&FechaExpedicionFactura={DD-MM-YYYY}&TipoFactura={code}&CuotaTotal={tax}&ImporteTotal={total}&Huella={prev}&FechaHoraHusoGenRegistro={iso}`
encoded as UTF-8, and the record hash is its uppercase-hexadecimal SHA-256
digest of exactly 64 characters; for the scenario-1 inputs (NIF B12345678,
number F2024-001, date 2024-12-25, type F1, tax 21.00, total 121.00, empty
previous hash, timestamp 2024-12-25T10:30:00+00:00) `calculate_alta_hash`
returns the hex-upper SHA-256 of the quoted canonical string. -/
theorem c1_alta_hash_canonical :
    (∀ (nif num : String) (d : DateD) (ty : String) (tax tot : Dec)
       (prev : String) (ts : Timestamp),
      calculate_alta_hash nif num d ty tax tot prev ts =
        hexUpper (sha256 (utf8Encode
          ("IDEmisorFactura=" ++ nif ++
           "&NumSerieFactura=" ++ num ++
           "&FechaExpedicionFactura=" ++ format_date d ++
           "&TipoFactura=" ++ ty ++
           "&CuotaTotal=" ++ format_amount tax ++
           "&ImporteTotal=" ++ format_amount tot ++
           "&Huella=" ++ prev ++
           "&FechaHoraHusoGenRegistro=" ++ format_timestamp ts))) ∧
      (calculate_alta_hash nif num d ty tax tot prev ts).length = 64 ∧
      allUpperHex (calculate_alta_hash nif num d ty tax tot prev ts)) ∧
    calculate_alta_hash "B12345678" "F2024-001" ⟨25, 12, 2024⟩ "F1"
        ⟨2100, 2⟩ ⟨12100, 2⟩ "" ⟨2024, 12, 25, 10, 30, 0, false, 0, 0⟩ =
      sha256HexUpper "IDEmisorFactura=B12345678&NumSerieFactura=F2024-001&FechaExpedicionFactura=25-12-2024&TipoFactura=F1&CuotaTotal=21.00&ImporteTotal=121.00&Huella=&FechaHoraHusoGenRegistro=2024-12-25T10:30:00+00:00" := by
  refine ⟨fun nif num d ty tax tot prev ts =>
    ⟨rfl, sha256HexUpper_length _, sha256HexUpper_upperHex _⟩, ?_⟩
  rfl

/-- C2: for every cancellation (anulacion) record the canonical hash input
contains only the fields IDEmisorFactura, NumSerieFactura,
FechaExpedicionFactura, Huella and FechaHoraHusoGenRegistro, in that order
joined by `&` — in particular neither TipoFactura nor CuotaTotal nor
ImporteTotal appears as a field — and the record hash is the uppercase-hex
SHA-256 of that UTF-8 string (64 characters). -/
theorem c2_anulacion_hash_canonical :
    ∀ (nif num : String) (d : DateD) (prev : String) (ts : Timestamp),
      calculate_anulacion_hash nif num d prev ts =
        hexUpper (sha256 (utf8Encode
          ("IDEmisorFactura=" ++ nif ++
           "&NumSerieFactura=" ++ num ++
           "&FechaExpedicionFactura=" ++ format_date d ++
           "&Huella=" ++ prev ++
           "&FechaHoraHusoGenRegistro=" ++ format_timestamp ts))) ∧
      (calculate_anulacion_hash nif num d prev ts).length = 64 ∧
      allUpperHex (calculate_anulacion_hash nif num d prev ts) :=
  fun nif num d prev ts =>
    ⟨rfl, sha256HexUpper_length _, sha256HexUpper_upperHex _⟩

/-- C3 (code behaviour at the failing input): the builder never produces a
record at all — `VerifactuRecord(invoice=invoice, …)` raises `TypeError`
for every input, so in the recovery scenario (empty local store, recovered
authority hash `H`) no record with `previous_hash = H` and
`is_first_record = false` is built; the call fails.  (The flag the source
computes before the raise, line 325, is `sequence_number == 1`, not
`previous_hash == ""` as the claim states.) -/
theorem c3_recovery_builder_raises :
    (∀ (loc : List StoredRecord) (aeat : Option String) (nif nm : String)
       (inv : Invoice) (now : Timestamp) (rt : RecordType) (r : BuiltRecord),
      create_record_from_invoice loc aeat nif nm inv now rt ≠ .ok r) ∧
    create_record_from_invoice []
      (some "AAAAAAAAAAAAAAAAAAAAAAAAAAAAAAAAAAAAAAAAAAAAAAAAAAAAAAAAAAAAAAAA")
      "B12345678" "ACME SL"
      ⟨"F2024-001", ⟨25, 12, 2024⟩, true, ⟨10000, 2⟩, ⟨2100, 2⟩, ⟨2100, 2⟩, ⟨12100, 2⟩⟩
      ⟨2024, 12, 25, 10, 30, 0, false, 0, 0⟩ .alta =
      .error invoiceKwargError := by
  refine ⟨?_, rfl⟩
  intro loc aeat nif nm inv now rt r
  simp [create_record_from_invoice]

/-- C4: when building a record the previous hash is resolved local head
first (the record with the highest `sequence_number`), then the recovery
pointer / recovered AEAT hash, then the empty string; once a local record
exists the pointer is never consulted — the result is the local head hash
for every pointer value. -/
theorem c4_previous_hash_resolution :
    ∀ (loc : List StoredRecord) (aeat ptr : Option String),
      (∀ r, headRec loc = some r →
        get_last_hash loc aeat = r.record_hash ∧
        get_effective_last_hash loc ptr = r.record_hash ∧
        r ∈ loc ∧ ∀ s ∈ loc, s.sequence_number ≤ r.sequence_number) ∧
      (loc ≠ [] → ∃ r, headRec loc = some r) ∧
      (∀ h, h ≠ "" → get_last_hash [] (some h) = h) ∧
      get_last_hash [] none = "" ∧
      (∀ h, get_effective_last_hash [] (some h) = h) ∧
      get_effective_last_hash [] none = "" := by
  intro loc aeat ptr
  refine ⟨?_, headRec_isSome, ?_, rfl, fun h => rfl, rfl⟩
  · intro r hr
    refine ⟨?_, ?_, headRec_mem hr, headRec_max hr⟩
    · simp [get_last_hash, hr]
    · simp [get_effective_last_hash, hr]
  · intro h hne
    simp [get_last_hash, headRec, hne]

/-- Closed witness for C4 at a two-row store and an empty store. -/
theorem c4_previous_hash_resolution_witness :
    get_last_hash [⟨1, "AB"⟩, ⟨2, "CD"⟩] (some "EF") = "CD" ∧
    get_effective_last_hash [⟨1, "AB"⟩, ⟨2, "CD"⟩] (some "GH") = "CD" ∧
    get_last_hash [] (some "EF") = "EF" ∧
    get_effective_last_hash [] (some "GH") = "GH" := by
  have h1 := c4_previous_hash_resolution [⟨1, "AB"⟩, ⟨2, "CD"⟩] (some "EF") (some "GH")
  have h2 := c4_previous_hash_resolution [] (some "EF") (some "GH")
  have hh : headRec [⟨1, "AB"⟩, ⟨2, "CD"⟩] = some ⟨2, "CD"⟩ := rfl
  refine ⟨(h1.1 _ hh).1, (h1.1 _ hh).2.1, h2.2.2.1 "EF" (by decide), h2.2.2.2.2.1 "GH"⟩

/-- C5: persisting the first record while the configuration is unlocked locks
the mode (sets `mode_locked`, records the current year in
`fiscal_year_locked`, sets `module_activated` and `first_record_date`);
locking an already-locked configuration changes nothing; thereafter
`can_change_mode()` is true iff the configuration is unlocked or locked for
a fiscal year different from the current one.  The positivity hypothesis on
`fiscal_year_locked` reflects that the source only ever stores a real
calendar year there and tests it for Python truthiness. -/
theorem c5_mode_lock :
    ∀ (cfg : VerifactuConfig) (uid : Option String) (now : Timestamp) (y2 : Nat),
      (cfg.mode_locked = false →
        save_record_config true cfg uid now = lock_mode cfg uid now ∧
        (lock_mode cfg uid now).mode_locked = true ∧
        (lock_mode cfg uid now).fiscal_year_locked = some now.year ∧
        (lock_mode cfg uid now).module_activated = true ∧
        (lock_mode cfg uid now).first_record_date = some ⟨now.day, now.month, now.year⟩ ∧
        (lock_mode cfg uid now).mode_locked_at = some now ∧
        (lock_mode cfg uid now).mode_locked_by = uid) ∧
      (cfg.mode_locked = true →
        lock_mode cfg uid now = cfg ∧ save_record_config true cfg uid now = cfg) ∧
      ((∀ y, cfg.fiscal_year_locked = some y → 0 < y) →
        (can_change_mode cfg y2 = true ↔
          cfg.mode_locked = false ∨ ∃ y, cfg.fiscal_year_locked = some y ∧ y ≠ y2)) ∧
      (cfg.mode_locked = false → 0 < now.year →
        (can_change_mode (lock_mode cfg uid now) y2 = true ↔ y2 ≠ now.year)) := by
  intro cfg uid now y2
  refine ⟨?_, ?_, ?_, ?_⟩
  · intro h
    simp [save_record_config, lock_mode, h]
  · intro h
    simp [save_record_config, lock_mode, h]
  · intro hpos
    cases hml : cfg.mode_locked with
    | false => simp [can_change_mode, hml]
    | true =>
      cases hfy : cfg.fiscal_year_locked with
      | none => simp [can_change_mode, hml, hfy]
      | some y =>
        have hy := hpos y hfy
        simp [can_change_mode, hml, hfy]
        omega
  · intro h hy
    simp [lock_mode, h, can_change_mode]
    omega

/-- Closed witness for C5: a fresh unlocked configuration is locked by the
first persist for fiscal year 2024; the same fiscal year blocks a mode
change and the next fiscal year allows it. -/
theorem c5_mode_lock_witness :
    (lock_mode ⟨false, none, none, none, false, none⟩ (some "user")
      ⟨2024, 12, 25, 10, 30, 0, false, 0, 0⟩).mode_locked = true ∧
    (lock_mode ⟨false, none, none, none, false, none⟩ (some "user")
      ⟨2024, 12, 25, 10, 30, 0, false, 0, 0⟩).fiscal_year_locked = some 2024 ∧
    can_change_mode (lock_mode ⟨false, none, none, none, false, none⟩ (some "user")
      ⟨2024, 12, 25, 10, 30, 0, false, 0, 0⟩) 2024 = false ∧
    can_change_mode (lock_mode ⟨false, none, none, none, false, none⟩ (some "user")
      ⟨2024, 12, 25, 10, 30, 0, false, 0, 0⟩) 2025 = true := by
  have h := c5_mode_lock ⟨false, none, none, none, false, none⟩ (some "user")
    ⟨2024, 12, 25, 10, 30, 0, false, 0, 0⟩ 2025
  have h4 := c5_mode_lock ⟨false, none, none, none, false, none⟩ (some "user")
    ⟨2024, 12, 25, 10, 30, 0, false, 0, 0⟩ 2024
  refine ⟨(h.1 rfl).2.1, (h.1 rfl).2.2.1, ?_, (h.2.2.2 rfl (by decide)).mpr (by decide)⟩
  have hc := h4.2.2.2 rfl (by decide)
  cases hcc : can_change_mode (lock_mode ⟨false, none, none, none, false, none⟩
      (some "user") ⟨2024, 12, 25, 10, 30, 0, false, 0, 0⟩) 2024 with
  | false => rfl
  | true => exact absurd rfl (hc.mp hcc)

/-- C6: under a head mismatch, conflict diagnosis yields `LocalBehind` with
`can_auto_resolve = true` exactly when the local store is empty and the
authority is non-empty, or the authority's head hash appears somewhere in
local history; when both sides are non-empty, the heads differ and the
authority head hash is nowhere in local history, the diagnosis is
`HashMismatch`, not auto-resolvable, with status
`ManualInterventionRequired`.  Local rows carry non-empty hashes (they are
64-character digests in the store). -/
theorem c6_conflict_classification :
    ∀ (loc : List StoredRecord) (aeat : List AeatRecord),
      (∀ r ∈ loc, r.record_hash ≠ "") →
      localLastHash loc ≠ aeatLastHash aeat →
      (((diagnose_conflict loc aeat).conflict_type = ConflictType.local_behind ∧
        (diagnose_conflict loc aeat).can_auto_resolve = true) ↔
        ((loc = [] ∧ aeat ≠ []) ∨ ∃ a ∈ loc, a.record_hash = aeatLastHash aeat)) ∧
      (loc ≠ [] → aeat ≠ [] → (∀ r ∈ loc, r.record_hash ≠ aeatLastHash aeat) →
        diagnose_conflict loc aeat =
          ⟨.manual_intervention_required, .hash_mismatch, false⟩) := by
  intro loc aeat hne hmis
  cases loc with
  | nil =>
    cases aeat with
    | nil => exact absurd rfl hmis
    | cons a t =>
      have hd : diagnose_conflict [] (a :: t) =
          ⟨.mismatch_detected, .local_behind, true⟩ := by
        simp [diagnose_conflict, hmis]
      refine ⟨?_, fun hl => absurd rfl hl⟩
      rw [hd]
      simp
  | cons b lt =>
    cases aeat with
    | nil =>
      have hd : diagnose_conflict (b :: lt) [] =
          ⟨.mismatch_detected, .local_ahead, true⟩ := by
        simp [diagnose_conflict, hmis]
      have ha0 : aeatLastHash ([] : List AeatRecord) = "" := rfl
      refine ⟨?_, fun _ ha => absurd rfl ha⟩
      rw [hd, ha0]
      constructor
      · rintro ⟨h1, _⟩
        exact absurd h1 (by decide)
      · rintro (⟨h1, _⟩ | ⟨x, hx, hxh⟩)
        · exact absurd h1 (List.cons_ne_nil b lt)
        · exact absurd hxh (hne x hx)
    | cons a t =>
      have hd : diagnose_conflict (b :: lt) (a :: t) =
          (if is_local_behind (b :: lt) (aeatLastHash (a :: t)) then
            ⟨.mismatch_detected, .local_behind, true⟩
          else ⟨.manual_intervention_required, .hash_mismatch, false⟩ : Diagnosis) := by
        simp [diagnose_conflict, hmis]
      constructor
      · by_cases hb : is_local_behind (b :: lt) (aeatLastHash (a :: t)) = true
        · rw [hd, if_pos hb]
          simp only [is_local_behind, List.any_eq_true, beq_iff_eq] at hb
          constructor
          · intro _
            exact Or.inr hb
          · intro _
            exact ⟨rfl, rfl⟩
        · rw [hd, if_neg hb]
          simp only [is_local_behind, List.any_eq_true, beq_iff_eq] at hb
          push_neg at hb
          constructor
          · rintro ⟨h1, _⟩
            exact absurd h1 (by decide)
          · rintro (⟨h1, _⟩ | ⟨x, hx, hxh⟩)
            · exact absurd h1 (List.cons_ne_nil b lt)
            · exact absurd hxh (hb x hx)
      · intro _ _ hall
        have hnb : ¬ is_local_behind (b :: lt) (aeatLastHash (a :: t)) = true := by
          simp only [is_local_behind, List.any_eq_true, beq_iff_eq]
          push_neg
          exact hall
        rw [hd, if_neg hnb]

/-- Closed witness for C6: one local row with hash AA against an authority
head BB nowhere in local history gives HashMismatch / manual intervention;
an empty local store against a non-empty authority gives auto-resolvable
LocalBehind. -/
theorem c6_conflict_classification_witness :
    diagnose_conflict [⟨1, "AA"⟩] [⟨"BB"⟩] =
      ⟨.manual_intervention_required, .hash_mismatch, false⟩ ∧
    (diagnose_conflict [] [⟨"BB"⟩]).conflict_type = ConflictType.local_behind ∧
    (diagnose_conflict [] [⟨"BB"⟩]).can_auto_resolve = true := by
  have h1 := c6_conflict_classification [⟨1, "AA"⟩] [⟨"BB"⟩] (by decide) (by decide)
  have h2 := c6_conflict_classification [] [⟨"BB"⟩] (by decide) (by decide)
  have h3 := h2.1.mpr (Or.inl ⟨rfl, by decide⟩)
  exact ⟨h1.2 (by decide) (by decide) (by decide), h3.1, h3.2⟩

/-- C7 (code behaviour at the failing input): `record_failure` increments
the consecutive-failure counter and stores the failure type, then raises
`TypeError` while creating the audit event (invalid `description` keyword,
contingency.py lines 203-207), so the mode-transition block is unreachable
and the mode never changes on any failure — on a fresh manager a Network
failure leaves the mode Normal, not Degraded.  Record creation is
nevertheless blocked after a HashChain failure attempt, because the
failure type was stored before the raise; and `record_success` does return
the mode to Normal and reset the counter as the claim states. -/
theorem c7_contingency_failure_raises :
    (∀ (m : Manager) (ft : FailureType),
      (m.record_failure ft).1.mode = m.mode ∧
      (m.record_failure ft).1.failure_count = m.failure_count + 1 ∧
      (m.record_failure ft).1.failure_type = some ft ∧
      (m.record_failure ft).2 = descriptionKwargError) ∧
    (Manager.init.record_failure .network).1.mode = ContingencyMode.normal ∧
    (Manager.init.record_failure .network).1.mode ≠ ContingencyMode.degraded ∧
    (∀ m : Manager,
      ((m.record_failure .hash_chain).1).can_create_records = false) ∧
    (∀ m : Manager,
      (m.record_success).mode = ContingencyMode.normal ∧
      (m.record_success).failure_count = 0) := by
  refine ⟨fun m ft => ⟨rfl, rfl, rfl, rfl⟩, rfl, by decide,
    fun m => by simp [Manager.record_failure, Manager.can_create_records],
    fun m => ⟨?_, ?_⟩⟩
  · by_cases hm : m.mode = ContingencyMode.normal <;>
      simp [Manager.record_success, hm]
  · by_cases hm : m.mode = ContingencyMode.normal <;>
      simp [Manager.record_success, hm]

/-- C8 (code behaviour at the failing input): no per-entry backoff is ever
scheduled.  Outside Offline mode, `process_queue` propagates the
`FieldError` that `get_pending_records` raises filtering on the
nonexistent `next_retry` column, so the transport-error arm that would
consult `RETRY_INTERVALS` never executes (and in Offline mode the loop
returns without processing).  The only operative per-entry scheduler,
`ContingencyQueue.schedule_retry`, advances `attempts` by one and backs
off `min(interval * 2^(attempts-1), 60)` minutes — 300 seconds, not 60, on
a first retry; the manager-level `_calculate_next_retry` (displayed by
`get_status`) does stick at 7200 seconds from the fifth consecutive
failure on. -/
theorem c8_retry_loop_dead :
    (∀ (m : Manager) (q : List QueueEntry),
      process_queue m q =
        if m.mode = ContingencyMode.offline then .ok (0, 0)
        else .error nextRetryFieldError) ∧
    process_queue Manager.init [⟨1, none, some 0⟩] = .error nextRetryFieldError ∧
    (∀ (e : QueueEntry) (now : Nat),
      (schedule_retry e 5 now).attempts = e.attempts + 1 ∧
      (schedule_retry e 5 now).next_attempt_at =
        some (now + min (5 * 2 ^ e.attempts) 60 * 60)) ∧
    (schedule_retry ⟨0, none, none⟩ 5 0).next_attempt_at = some 300 ∧
    (schedule_retry ⟨0, none, none⟩ 5 0).next_attempt_at ≠ some 60 ∧
    (∀ now : Nat,
      (Manager.mk ContingencyMode.offline (some FailureType.network) 5).calculate_next_retry
        now = some (now + 7200)) := by
  refine ⟨?_, rfl, fun e now => ⟨rfl, rfl⟩, rfl, by decide, fun now => rfl⟩
  intro m q
  by_cases hm : m.mode = ContingencyMode.offline <;>
    simp [process_queue, get_pending_records, hm]

/-- C9 counterexample: the canonical amount formatting maps 100.125 to
`100.12` (round-half-even), not to the claimed `100.14`. -/
theorem c9_rounding_counterexample :
    format_amount ⟨100125, 3⟩ = "100.12" ∧ format_amount ⟨100125, 3⟩ ≠ "100.14" := by
  exact ⟨rfl, by decide⟩

/-- C9 amended: amounts are rounded to two fractional digits by the
canonical formatter itself (Python Decimal `.2f` formatting), using
round-half-even: a value already at two decimals passes through exactly
(no re-rounding), and an exact half-cent rounds up exactly when the
truncated cents value is odd, so 100.125 formats as 100.12 and 100.135 as
100.14. -/
theorem c9_rounding_amended :
    (∀ c : Nat, halfEvenDiv (10 * c + 5) 10 = if c % 2 = 0 then c else c + 1) ∧
    (∀ m : Nat, toCents ⟨m, 2⟩ = m) ∧
    format_amount ⟨100125, 3⟩ = "100.12" ∧
    format_amount ⟨100135, 3⟩ = "100.14" := by
  refine ⟨?_, ?_, rfl, rfl⟩
  · intro c
    have h1 : (10 * c + 5) / 10 = c := by omega
    have h2 : (10 * c + 5) % 10 = 5 := by omega
    simp [halfEvenDiv, h1, h2]
  · intro m
    simp [toCents]

/-- Support: a freshly computed record hash is never the empty string. -/
theorem calculate_hash_ne_empty (r : RecordRow) : r.calculate_hash ≠ "" := by
  unfold RecordRow.calculate_hash
  cases r.record_type <;> exact sha256HexUpper_ne_empty _

/-- Support: generated QR URLs are never the empty string. -/
theorem generate_qr_url_ne_empty (r : RecordRow) : r.generate_qr_url ≠ "" := by
  intro h
  have hl := congrArg String.length h
  rw [RecordRow.generate_qr_url] at hl
  simp only [String.length_append] at hl
  have hp : 0 <
      ("https://www2.agenciatributaria.gob.es/wlpl/TIKE-CONT/ValidarQR" : String).length := by
    decide
  have h0 : ("" : String).length = 0 := rfl
  omega

/-- C10: save computes `record_hash` and `qr_url` only when the respective
field is empty — on a previously saved row (non-empty hash and QR URL, set
timestamp), saving again changes nothing at all, even if identity, amount
or timestamp fields were modified in memory beforehand, so a stale hash is
preserved rather than corrected; moreover every saved row has a non-empty
hash and QR URL and a set timestamp, so the frame applies to every
saved-then-tampered row. -/
theorem c10_save_only_fills_empty :
    ∀ (r : RecordRow) (now : Timestamp),
      (r.record_hash ≠ "" → (save_record r now).record_hash = r.record_hash) ∧
      (r.qr_url ≠ "" → (save_record r now).qr_url = r.qr_url) ∧
      (r.record_hash ≠ "" → r.qr_url ≠ "" → r.generation_timestamp ≠ none →
        save_record r now = r) ∧
      (save_record r now).record_hash ≠ "" ∧
      (save_record r now).qr_url ≠ "" ∧
      (save_record r now).generation_timestamp ≠ none := by
  intro r now
  by_cases ht : r.generation_timestamp = none <;>
    by_cases hh : r.record_hash = "" <;>
      by_cases hq : r.qr_url = "" <;>
        simp [save_record, ht, hh, hq, calculate_hash_ne_empty, generate_qr_url_ne_empty]

/-- Closed witness for C10: a row whose stored hash was tampered with (it
does not match its content) passes through save unchanged. -/
theorem c10_save_only_fills_empty_witness :
    save_record
      ⟨.alta, "B12345678", "F2024-001", ⟨25, 12, 2024⟩, "F1", ⟨2100, 2⟩,
       ⟨12100, 2⟩, "", "TAMPERED", true,
       some ⟨2024, 12, 25, 10, 30, 0, false, 0, 0⟩, "https://example/qr"⟩
      ⟨2025, 1, 1, 0, 0, 0, false, 0, 0⟩ =
    ⟨.alta, "B12345678", "F2024-001", ⟨25, 12, 2024⟩, "F1", ⟨2100, 2⟩,
     ⟨12100, 2⟩, "", "TAMPERED", true,
     some ⟨2024, 12, 25, 10, 30, 0, false, 0, 0⟩, "https://example/qr"⟩ := by
  have h := c10_save_only_fills_empty
    ⟨.alta, "B12345678", "F2024-001", ⟨25, 12, 2024⟩, "F1", ⟨2100, 2⟩,
     ⟨12100, 2⟩, "", "TAMPERED", true,
     some ⟨2024, 12, 25, 10, 30, 0, false, 0, 0⟩, "https://example/qr"⟩
    ⟨2025, 1, 1, 0, 0, 0, false, 0, 0⟩
  exact h.2.2.1 (by decide) (by decide) (by decide)

end Verifactu
